import Mathlib

/-!
Shallow embedding of the Lodz_Hack transit-data repository (Python) in Lean 4,
together with theorems settling the frozen claims about it.

Modules embedded:
* `Pipeline`   — src/pipeline/pipeline.py (route sets, delay rounding, feed
  parsing, stop-name enrichment, dataset building, vehicles⟕trips join).
* `VehPos`     — src/mati-test/veh_pos.py (snapshot-publishing fetch loop).
* `LiveSuggest`— src/routes_api/live_vehicle_suggest.py (live vehicle matcher).
* `BinToCsv`   — src/Wiki_Testing_Area/bin_to_csv.py (raw protobuf field scan).

Conventions: Python `None` is `Option.none`; Python strings are `String`;
protobuf floats (latitude/longitude/bearing/speed) are carried as `Rat` —
the code only moves them, never computes with them; machine integers are
`Nat`/`Int` (Python ints are unbounded, so no wrap-around modelling is
needed); a Python function that can raise is `Except String`.
-/

namespace Py

/-- Python's `str(x)` on an optional string: `str(None) = "None"`.
Used by `astype(str)` in pandas (object column with `None` entries) and by
`str(v.get(...))` in the live matcher. -/
def pyStr : Option String → String
  | none => "None"
  | some s => s

/-- ASCII whitespace, the relevant fragment of Python's `str.strip` /
regex `\s` character class for the route ids and stop labels that occur. -/
def isPySpace (c : Char) : Bool :=
  c = ' ' ∨ c = '\t' ∨ c = '\n' ∨ c = '\r' ∨ c = '\x0b' ∨ c = '\x0c'

/-- Python's `str.strip()`: drop leading and trailing whitespace. -/
def pyStrip (s : String) : String :=
  String.mk (((s.data.dropWhile isPySpace).reverse.dropWhile isPySpace).reverse)

/-- Python truthiness test `not x` for an optional string:
`None` and `""` are falsy. -/
def pyFalsyStr : Option String → Bool
  | none => true
  | some s => s = ""

end Py

namespace Pipeline

/-- `TRAM_ROUTES` (pipeline.py lines 16-22). -/
def TRAM_ROUTES : List String :=
  ["1", "2", "3", "4", "5", "6", "7", "8", "9",
   "10A", "10B",
   "11", "12", "14", "15",
   "16", "17", "18", "19",
   "41", "43", "45"]

/-- `BUS_ROUTES` (pipeline.py lines 24-70). -/
def BUS_ROUTES : List String :=
  ["Z", "Z3", "Z13",
   "50A", "50B",
   "51A", "51B",
   "52",
   "53A", "53B",
   "54A", "54B",
   "55A", "55B",
   "56",
   "57",
   "58A", "58B",
   "59",
   "60A", "60B", "60C", "60D",
   "61", "62", "63",
   "64A", "64B",
   "65A", "65B",
   "66",
   "68",
   "69A", "69B",
   "70",
   "71A", "71B",
   "72A", "72B",
   "73",
   "75A", "75B",
   "76",
   "77",
   "78",
   "80A", "80B",
   "81A", "81B",
   "82A", "82B",
   "83",
   "84A", "84B",
   "85A", "85B",
   "86",
   "87A", "87B",
   "88A", "88B", "88C", "88D",
   "89", "90",
   "91A", "91B", "91C",
   "92A", "92B",
   "93",
   "94",
   "96",
   "97A", "97B",
   "99",
   "201", "202",
   "F1", "G1", "G2", "H", "W"]

/-- `NOCNE_BUS_ROUTES` (pipeline.py lines 72-82). -/
def NOCNE_BUS_ROUTES : List String :=
  ["N1A", "N1B",
   "N2",
   "N3A", "N3B",
   "N4A", "N4B",
   "N5A", "N5B",
   "N6",
   "N7A", "N7B",
   "N8",
   "N9"]

/-- `classify_route_type` (pipeline.py lines 85-100): `pd.isna(route_id)`
is the `none` case; otherwise `str(route_id).strip()` then ordered
membership tests. -/
def classify_route_type (routeId : Option String) : String :=
  match routeId with
  | none => "unknown"
  | some rid =>
      let r := Py.pyStrip rid
      if r ∈ TRAM_ROUTES then "tramwaj"
      else if r ∈ BUS_ROUTES then "autobus"
      else if r ∈ NOCNE_BUS_ROUTES then "nocny_autobus"
      else "unknown"

/-- `seconds_to_minutes_custom` (pipeline.py lines 227-248).
`pd.isna` is the `none` case.  For the integer-valued delays the feed
carries, Python's float `//` and `%` agree with `Int.fdiv` / `Int.fmod`
(floor division; remainder with the divisor's sign, here nonnegative);
the code's `abs(sec % 60)` is modelled literally. -/
def seconds_to_minutes_custom (sec : Option Int) : Option Int :=
  match sec with
  | none => none
  | some s =>
      let minutes := Int.fdiv s 60
      let remainder := |Int.fmod s 60|
      if remainder < 30 then some minutes
      else if s < 0 then some (minutes - 1)
      else some (minutes + 1)

/-- GTFS-RT `TripDescriptor` submessage: leaf fields with presence. -/
structure TripDescriptor where
  tripId : Option String
  routeId : Option String
  directionId : Option Nat
  startTime : Option String
deriving Repr, DecidableEq

/-- GTFS-RT `VehicleDescriptor` submessage (only `id` is read). -/
structure VehicleDescriptor where
  id : Option String
deriving Repr, DecidableEq

/-- GTFS-RT `Position` submessage (only latitude/longitude are read here). -/
structure Position where
  latitude : Option Rat
  longitude : Option Rat
deriving Repr, DecidableEq

/-- GTFS-RT `VehiclePosition` message.  Submessages are modelled as always
present with optional leaves: reading a leaf of an unset protobuf submessage
behaves like the all-`none` record, which is how pipeline.py reads them. -/
structure VehiclePosition where
  vehicle : VehicleDescriptor
  trip : TripDescriptor
  position : Position
  stopId : Option String
  currentStopSequence : Option Nat
  currentStatus : Option Int
  timestamp : Option Nat
deriving Repr, DecidableEq

/-- GTFS-RT `StopTimeEvent` (only `delay` is read). -/
structure StopTimeEvent where
  delay : Option Int
deriving Repr, DecidableEq

/-- GTFS-RT `StopTimeUpdate`. -/
structure StopTimeUpdate where
  stopId : Option String
  stopSequence : Option Nat
  scheduleRelationship : Option Int
  arrival : Option StopTimeEvent
deriving Repr, DecidableEq

/-- GTFS-RT `TripUpdate`. -/
structure TripUpdate where
  trip : TripDescriptor
  stopTimeUpdate : List StopTimeUpdate
deriving Repr, DecidableEq

/-- GTFS-RT `FeedEntity`: carries a vehicle position and/or a trip update. -/
structure FeedEntity where
  vehicle : Option VehiclePosition
  tripUpdate : Option TripUpdate
deriving Repr, DecidableEq

/-- GTFS-RT `FeedMessage` (entity list; the header is not read here). -/
structure FeedMessage where
  entity : List FeedEntity
deriving Repr, DecidableEq

/-- One row of the vehicle-positions DataFrame
(`parse_vehicle_positions_feed`, pipeline.py lines 121-148). -/
structure VehicleRow where
  entityId : Nat
  vehicleId : Option String
  tripId : Option String
  routeId : Option String
  latitude : Option Rat
  longitude : Option Rat
  currentStopId : Option String
  currentStopSequence : Option Nat
  currentStatus : Option Int
  timestamp : Option Nat
deriving Repr, DecidableEq

/-- The entity loop of `parse_vehicle_positions_feed`: `entity_counter`
increments only on vehicle-bearing entities; every vehicle yields one row. -/
def parseVehicleEntities : List FeedEntity → Nat → List VehicleRow
  | [], _ => []
  | e :: rest, counter =>
      match e.vehicle with
      | none => parseVehicleEntities rest counter
      | some v =>
          { entityId := counter + 1,
            vehicleId := v.vehicle.id,
            tripId := v.trip.tripId,
            routeId := v.trip.routeId,
            latitude := v.position.latitude,
            longitude := v.position.longitude,
            currentStopId := v.stopId,
            currentStopSequence := v.currentStopSequence,
            currentStatus := v.currentStatus,
            timestamp := v.timestamp } :: parseVehicleEntities rest (counter + 1)

/-- `parse_vehicle_positions_feed` (pipeline.py lines 121-148). -/
def parse_vehicle_positions_feed (feed : FeedMessage) : List VehicleRow :=
  parseVehicleEntities feed.entity 0

/-- One row of the trip-updates DataFrame
(`parse_trip_updates_feed`, pipeline.py lines 151-192):
each `StopTimeUpdate` becomes its own row. -/
structure TripRow where
  entityId : Nat
  tuTripId : Option String
  tuRouteId : Option String
  tuDirectionId : Option Nat
  tuStartTime : Option String
  stopId : Option String
  stopSequence : Option Nat
  arrivalDelay : Option Int
  scheduleRelationship : Option Int
deriving Repr, DecidableEq

/-- The entity loop of `parse_trip_updates_feed`.  `arrival_delay` is set
only when both `stu.arrival` and `stu.arrival.delay` are present. -/
def parseTripEntities : List FeedEntity → Nat → List TripRow
  | [], _ => []
  | e :: rest, counter =>
      match e.tripUpdate with
      | none => parseTripEntities rest counter
      | some tu =>
          (tu.stopTimeUpdate.map (fun stu =>
            { entityId := counter + 1,
              tuTripId := tu.trip.tripId,
              tuRouteId := tu.trip.routeId,
              tuDirectionId := tu.trip.directionId,
              tuStartTime := tu.trip.startTime,
              stopId := stu.stopId,
              stopSequence := stu.stopSequence,
              arrivalDelay := stu.arrival.bind StopTimeEvent.delay,
              scheduleRelationship := stu.scheduleRelationship }))
            ++ parseTripEntities rest (counter + 1)

/-- `parse_trip_updates_feed` (pipeline.py lines 151-192). -/
def parse_trip_updates_feed (feed : FeedMessage) : List TripRow :=
  parseTripEntities feed.entity 0

/-- One row of `stops.txt` as loaded by `add_stop_names_to_vehicles`
(`stop_id` read as string; name and coordinates present). -/
structure StaticStop where
  stopId : String
  stopName : String
  stopLat : Rat
  stopLon : Rat
deriving Repr, DecidableEq

/-- A vehicle row after the stop-name merge (pipeline.py lines 197-222).
`current_stop_id` has been through `astype(str)`, so it is a plain string:
a missing id has become the string literal rendered by `Py.pyStr`. -/
structure VehicleStopRow where
  entityId : Nat
  vehicleId : Option String
  tripId : Option String
  routeId : Option String
  latitude : Option Rat
  longitude : Option Rat
  currentStopId : String
  currentStopSequence : Option Nat
  currentStatus : Option Int
  timestamp : Option Nat
  currentStopName : Option String
  currentStopLat : Option Rat
  currentStopLon : Option Rat
deriving Repr, DecidableEq

/-- One vehicle row through the pandas left merge with the stops table:
no matching stop gives one row with null name/lat/lon; k matching stops
give k rows (pandas duplicates left rows on duplicate right keys). -/
def enrichRow (stops : List StaticStop) (r : VehicleRow) : List VehicleStopRow :=
  let cs := Py.pyStr r.currentStopId
  match stops.filter (fun s => s.stopId = cs) with
  | [] =>
      [{ entityId := r.entityId, vehicleId := r.vehicleId, tripId := r.tripId,
         routeId := r.routeId, latitude := r.latitude, longitude := r.longitude,
         currentStopId := cs, currentStopSequence := r.currentStopSequence,
         currentStatus := r.currentStatus, timestamp := r.timestamp,
         currentStopName := none, currentStopLat := none, currentStopLon := none }]
  | ms =>
      ms.map (fun s =>
        { entityId := r.entityId, vehicleId := r.vehicleId, tripId := r.tripId,
          routeId := r.routeId, latitude := r.latitude, longitude := r.longitude,
          currentStopId := cs, currentStopSequence := r.currentStopSequence,
          currentStatus := r.currentStatus, timestamp := r.timestamp,
          currentStopName := some s.stopName, currentStopLat := some s.stopLat,
          currentStopLon := some s.stopLon })

/-- `add_stop_names_to_vehicles` (pipeline.py lines 197-222), row level:
coerce `current_stop_id` with `astype(str)`, left-merge against stops on
`current_stop_id = stop_id`, rename the gained columns and drop `stop_id`.
The `stops.txt` read from disk is abstracted to the `stops` argument. -/
def add_stop_names_to_vehicles (stops : List StaticStop) (vp : List VehicleRow) :
    List VehicleStopRow :=
  vp.flatMap (enrichRow stops)

/-- One row of `vehicles_df` as returned by `build_datasets_from_feeds`
(pipeline.py lines 277-294): enriched row plus `route_type`, with the
final column selection. -/
structure FinalVehicleRow where
  entityId : Nat
  tripId : Option String
  routeId : Option String
  vehicleId : Option String
  latitude : Option Rat
  longitude : Option Rat
  currentStopId : String
  currentStopName : Option String
  currentStopSequence : Option Nat
  currentStatus : Option Int
  routeType : String
  timestamp : Option Nat
  currentStopLat : Option Rat
  currentStopLon : Option Rat
deriving Repr, DecidableEq

/-- One row of `trips_df` as returned by `build_datasets_from_feeds`
(pipeline.py lines 296-308). -/
structure FinalTripRow where
  entityId : Nat
  tuTripId : Option String
  tuRouteId : Option String
  tuDirectionId : Option Nat
  arrivalDelay : Option Int
  stopId : Option String
  stopSequence : Option Nat
  scheduleRelationship : Option Int
  routeType : String
deriving Repr, DecidableEq

/-- `build_datasets_from_feeds` (pipeline.py lines 253-310).
`pd.DataFrame([])` has no columns at all, so when no vehicle row was
parsed, `add_stop_names_to_vehicles`'s `vp_df["current_stop_id"]` raises
`KeyError`; likewise `tu_df["tu_route_id"]` at step 3 raises when no
stop-time-update row was parsed.  The `stops.txt` file read is abstracted
to the `stops` argument. -/
def build_datasets_from_feeds (stops : List StaticStop)
    (vehicleFeed tripFeed : FeedMessage) :
    Except String (List FinalVehicleRow × List FinalTripRow) :=
  let vpRows := parse_vehicle_positions_feed vehicleFeed
  let tuRows := parse_trip_updates_feed tripFeed
  if vpRows.isEmpty then .error "KeyError: current_stop_id"
  else if tuRows.isEmpty then .error "KeyError: tu_route_id"
  else
    let vp2 := (add_stop_names_to_vehicles stops vpRows).map (fun r =>
      ({ entityId := r.entityId, tripId := r.tripId, routeId := r.routeId,
         vehicleId := r.vehicleId, latitude := r.latitude,
         longitude := r.longitude, currentStopId := r.currentStopId,
         currentStopName := r.currentStopName,
         currentStopSequence := r.currentStopSequence,
         currentStatus := r.currentStatus,
         routeType := classify_route_type r.routeId,
         timestamp := r.timestamp, currentStopLat := r.currentStopLat,
         currentStopLon := r.currentStopLon } : FinalVehicleRow))
    let tu2 := tuRows.map (fun r =>
      ({ entityId := r.entityId, tuTripId := r.tuTripId,
         tuRouteId := r.tuRouteId, tuDirectionId := r.tuDirectionId,
         arrivalDelay := r.arrivalDelay, stopId := r.stopId,
         stopSequence := r.stopSequence,
         scheduleRelationship := r.scheduleRelationship,
         routeType := classify_route_type r.tuRouteId } : FinalTripRow))
    .ok (vp2, tu2)

/-- `trips_small` column selection inside `build_vehicles_trips_joined_from_feeds`
(pipeline.py lines 328-337). -/
structure TripsSmallRow where
  tuTripId : Option String
  stopSequence : Option Nat
  tuDirectionId : Option Nat
  arrivalDelay : Option Int
  stopId : Option String
  scheduleRelationship : Option Int
deriving Repr, DecidableEq

/-- Project a `trips_df` row to the `trips_small` columns. -/
def trips_small (trips : List FinalTripRow) : List TripsSmallRow :=
  trips.map (fun t =>
    { tuTripId := t.tuTripId, stopSequence := t.stopSequence,
      tuDirectionId := t.tuDirectionId, arrivalDelay := t.arrivalDelay,
      stopId := t.stopId, scheduleRelationship := t.scheduleRelationship })

/-- One row of the merged frame built by
`build_vehicles_trips_joined_from_feeds` (pipeline.py lines 339-355):
all vehicle columns, the trip columns other than the dropped `tu_trip_id`,
and the derived `arrival_delay_minutes`. -/
structure JoinedRow where
  entityId : Nat
  tripId : Option String
  routeId : Option String
  vehicleId : Option String
  latitude : Option Rat
  longitude : Option Rat
  currentStopId : String
  currentStopName : Option String
  currentStopSequence : Option Nat
  currentStatus : Option Int
  routeType : String
  timestamp : Option Nat
  currentStopLat : Option Rat
  currentStopLon : Option Rat
  tuDirectionId : Option Nat
  arrivalDelay : Option Int
  stopId : Option String
  stopSequence : Option Nat
  scheduleRelationship : Option Int
  arrivalDelayMinutes : Option Int
deriving Repr, DecidableEq

/-- The merge key of pipeline.py line 342-343:
`(trip_id, current_stop_sequence) = (tu_trip_id, stop_sequence)`.
pandas matches NaN join keys to NaN, so plain `Option` equality is the
faithful key comparison. -/
def joinKeyMatches (v : FinalVehicleRow) (t : TripsSmallRow) : Bool :=
  t.tuTripId = v.tripId ∧ t.stopSequence = v.currentStopSequence

/-- Assemble one merged row from a vehicle row and an optional matching
trip row (`none` is the unmatched left-join case: all trip-side columns
NaN, and `arrival_delay_minutes = seconds_to_minutes_custom(NaN) = None`). -/
def mkJoined (v : FinalVehicleRow) (t : Option TripsSmallRow) : JoinedRow :=
  { entityId := v.entityId, tripId := v.tripId, routeId := v.routeId,
    vehicleId := v.vehicleId, latitude := v.latitude, longitude := v.longitude,
    currentStopId := v.currentStopId, currentStopName := v.currentStopName,
    currentStopSequence := v.currentStopSequence,
    currentStatus := v.currentStatus, routeType := v.routeType,
    timestamp := v.timestamp, currentStopLat := v.currentStopLat,
    currentStopLon := v.currentStopLon,
    tuDirectionId := t.bind TripsSmallRow.tuDirectionId,
    arrivalDelay := t.bind TripsSmallRow.arrivalDelay,
    stopId := t.bind TripsSmallRow.stopId,
    stopSequence := t.bind TripsSmallRow.stopSequence,
    scheduleRelationship := t.bind TripsSmallRow.scheduleRelationship,
    arrivalDelayMinutes := seconds_to_minutes_custom (t.bind TripsSmallRow.arrivalDelay) }

/-- The pandas left merge of pipeline.py lines 340-350 at row level:
each vehicle row joined with every matching trip row, or with `none`
when no trip row matches. -/
def merge_vehicles_trips (vehicles : List FinalVehicleRow)
    (trips : List TripsSmallRow) : List JoinedRow :=
  vehicles.flatMap (fun v =>
    match trips.filter (joinKeyMatches v) with
    | [] => [mkJoined v none]
    | ms => ms.map (fun t => mkJoined v (some t)))

/-- `build_vehicles_trips_joined_from_feeds` (pipeline.py lines 313-355). -/
def build_vehicles_trips_joined_from_feeds (stops : List StaticStop)
    (vehicleFeed tripFeed : FeedMessage) : Except String (List JoinedRow) :=
  match build_datasets_from_feeds stops vehicleFeed tripFeed with
  | .error e => .error e
  | .ok (vehicles, trips) => .ok (merge_vehicles_trips vehicles (trips_small trips))

end Pipeline

namespace VehPos

/-- One parsed vehicle entry of the snapshot (veh_pos.py lines 105-114). -/
structure VehicleEntry where
  vehicleId : Option String
  tripId : Option String
  routeId : Option String
  latitude : Option Rat
  longitude : Option Rat
  bearing : Option Rat
  speed : Option Rat
  timestamp : Option Nat
deriving Repr, DecidableEq

/-- The vehicle message of the veh_pos feed (leaves with presence;
submessages modelled as always-present records of optional leaves). -/
structure FeedVehicle where
  vehicleId : Option String
  tripId : Option String
  routeId : Option String
  latitude : Option Rat
  longitude : Option Rat
  bearing : Option Rat
  speed : Option Rat
  timestamp : Option Nat
deriving Repr, DecidableEq

/-- An entity of the veh_pos feed. -/
structure FeedEntity where
  vehicle : Option FeedVehicle
deriving Repr, DecidableEq

/-- The decoded feed: header version, optional header timestamp, entities. -/
structure Feed where
  headerVersion : String
  headerTimestamp : Option Nat
  entity : List FeedEntity
deriving Repr, DecidableEq

/-- The snapshot published to `latest_response_data`
(veh_pos.py lines 119-129). -/
structure Snapshot where
  rawContentHex : String
  feedTimestamp : Nat
  fetchedAt : String
  headerVersion : String
  vehicles : List VehicleEntry
  vehicleCount : Nat
deriving Repr, DecidableEq

/-- Ways a polling cycle fails before a snapshot can be built: the
`requests` call raising (network error, timeout, non-2xx status via
`raise_for_status`) or `ParseFromString` rejecting the payload. -/
inductive FetchFailure where
  | network
  | timeout
  | badStatus (code : Nat)
  | decodeFailure
deriving Repr, DecidableEq

/-- What a successful fetch yields: the raw body (as its hex string), the
decoded feed, and the wall clock readings used by the snapshot. -/
structure FetchSuccess where
  contentHex : String
  feed : Feed
  epochNow : Nat
  isoNow : String
deriving Repr, DecidableEq

/-- The vehicle-collection loop of veh_pos.py lines 101-115. -/
def parseVehiclesData (entities : List FeedEntity) : List VehicleEntry :=
  entities.filterMap (fun e =>
    e.vehicle.map (fun v =>
      { vehicleId := v.vehicleId, tripId := v.tripId, routeId := v.routeId,
        latitude := v.latitude, longitude := v.longitude,
        bearing := v.bearing, speed := v.speed, timestamp := v.timestamp }))

/-- Build the snapshot assigned to `latest_response_data`
(veh_pos.py lines 117-129). -/
def buildSnapshot (s : FetchSuccess) : Snapshot :=
  let ft := s.feed.headerTimestamp.getD s.epochNow
  let vehicles := parseVehiclesData s.feed.entity
  { rawContentHex := s.contentHex, feedTimestamp := ft, fetchedAt := s.isoNow,
    headerVersion := s.feed.headerVersion, vehicles := vehicles,
    vehicleCount := vehicles.length }

/-- `fetch_vehicle_positions` (veh_pos.py lines 87-157) as a state
transformer on the published `latest_response_data`: the cycle's fetch
outcome is the input; both `except` arms leave the global untouched and
return `False`; a success publishes the freshly built snapshot and
returns `True`.  The SQLite write is outside the claims and elided. -/
def fetch_vehicle_positions (latest : Option Snapshot)
    (outcome : Except FetchFailure FetchSuccess) : Option Snapshot × Bool :=
  match outcome with
  | .error _ => (latest, false)
  | .ok s => (some (buildSnapshot s), true)

/-- `continuous_fetch_loop` (veh_pos.py lines 160-165) over a finite trace
of cycle outcomes: every tick runs `fetch_vehicle_positions` regardless of
the previous tick's result. -/
def continuous_fetch_loop (latest : Option Snapshot)
    (outcomes : List (Except FetchFailure FetchSuccess)) : Option Snapshot :=
  outcomes.foldl (fun st o => (fetch_vehicle_positions st o).1) latest

end VehPos

namespace LiveSuggest

/-- One row of the `/data` backend payload consumed by the matcher: a
joined vehicles+trips row rendered as JSON (live_vehicle_suggest.py). -/
structure DataRow where
  vehicleId : Option String
  routeId : Option String
  currentStopId : Option String
  currentStopName : Option String
  arrivalDelayMinutes : Option Int
  timestamp : Option Nat
deriving Repr, DecidableEq

/-- `extract_stop_code` (live_vehicle_suggest.py lines 49-57): `re.search`
of `\((\d+)\)\s*$` — the label must end with a parenthesized nonempty
digit group, optionally followed by whitespace; the digits are returned.
The argument is optional because the caller passes `step.get("departure_stop")`
and `if not stop_label` treats `None` and `""` alike. -/
def extract_stop_code (stopLabel : Option String) : Option String :=
  match stopLabel with
  | none => none
  | some label =>
      if label = "" then none
      else
        match (label.data.reverse.dropWhile Py.isPySpace) with
        | ')' :: rest =>
            let digits := rest.takeWhile Char.isDigit
            match digits, rest.dropWhile Char.isDigit with
            | _ :: _, '(' :: _ => some (String.mk digits.reverse)
            | _, _ => none
        | _ => none

/-- `classify_delay_status` (live_vehicle_suggest.py lines 60-79) on the
integer delays produced by the pipeline. -/
def classify_delay_status (delayMin : Option Int) : Option String :=
  match delayMin with
  | none => none
  | some m =>
      if m ≤ -1 then some "early"
      else if m ≤ 1 then some "on_time"
      else some "late"

/-- The sort key of live_vehicle_suggest.py line 111:
`v.get("timestamp") or 0` — a missing timestamp counts as 0. -/
def tsKey (v : DataRow) : Nat :=
  v.timestamp.getD 0

/-- The stable descending sort by `tsKey` followed by `[0]`
(live_vehicle_suggest.py lines 111-112): the first row, in input order,
whose key no later row strictly exceeds. -/
def selectLatest : List DataRow → Option DataRow
  | [] => none
  | v :: rest =>
      match selectLatest rest with
      | none => some v
      | some w => if tsKey w > tsKey v then some w else some v

/-- The conjunctive candidate filter of live_vehicle_suggest.py
lines 100-105: stringified `route_id` equals the line AND stringified
`current_stop_id` equals the stop code. -/
def matcherCandidates (rows : List DataRow) (lineStr stopStr : String) :
    List DataRow :=
  rows.filter (fun v =>
    Py.pyStr v.routeId = lineStr ∧ Py.pyStr v.currentStopId = stopStr)

/-- `find_matching_vehicle` (live_vehicle_suggest.py lines 82-112):
requires a truthy line and a truthy stop code, filters on both key
equalities at once, and returns the freshest candidate. -/
def find_matching_vehicle (rows : List DataRow) (line : Option String)
    (depStopCode : Option String) : Option DataRow :=
  if Py.pyFalsyStr line ∨ Py.pyFalsyStr depStopCode then none
  else
    let lineStr := Py.pyStr line
    let stopStr := Py.pyStr depStopCode
    match matcherCandidates rows lineStr stopStr with
    | [] => none
    | ms => selectLatest ms

/-- Modelled from the spec (refinement comparison only; the source has no
such fallback): the matcher as the claim describes it — first filter by
line alone, then narrow by the stop code when the label carries one,
falling back to the line-only set when the narrowed set is empty, and
select the freshest remaining candidate. -/
def spec_find_matching_vehicle (rows : List DataRow) (line : Option String)
    (depStopCode : Option String) : Option DataRow :=
  let lineCands := rows.filter (fun v => Py.pyStr v.routeId = Py.pyStr line)
  let cands :=
    match depStopCode with
    | none => lineCands
    | some code =>
        match lineCands.filter (fun v => Py.pyStr v.currentStopId = code) with
        | [] => lineCands
        | narrowed => narrowed
  selectLatest cands

/-- The `vehicle_live` payload attached to a matched TRANSIT step
(live_vehicle_suggest.py lines 169-177). -/
structure VehicleLive where
  vehicleId : Option String
  routeId : Option String
  currentStopId : Option String
  currentStopName : Option String
  arrivalDelayMinutes : Option Int
  delayStatus : Option String
  timestamp : Option Nat
deriving Repr, DecidableEq

/-- A route step as far as the enricher reads and writes it. -/
structure TransitStep where
  mode : String
  line : Option String
  departureStop : Option String
  vehicleLive : Option VehicleLive
deriving Repr, DecidableEq

/-- The per-step body of the loop in `enrich_route_with_live_vehicle_data`
(live_vehicle_suggest.py lines 155-177): non-TRANSIT steps are skipped; a
match sets `vehicle_live`; on no match the step is left exactly as it was
(no key is added). -/
def enrich_step (rows : List DataRow) (step : TransitStep) : TransitStep :=
  if step.mode ≠ "TRANSIT" then step
  else
    let code := extract_stop_code step.departureStop
    match find_matching_vehicle rows step.line code with
    | none => step
    | some m =>
        { step with vehicleLive := some (
            { vehicleId := m.vehicleId, routeId := m.routeId,
              currentStopId := m.currentStopId,
              currentStopName := m.currentStopName,
              arrivalDelayMinutes := m.arrivalDelayMinutes,
              delayStatus := classify_delay_status m.arrivalDelayMinutes,
              timestamp := m.timestamp } : VehicleLive) }

/-- The step loop of `enrich_route_with_live_vehicle_data` over all steps
(the surrounding fetch of `/data` is abstracted to the `rows` argument;
its failure arm returns the route unchanged). -/
def enrich_route_steps (rows : List DataRow) (steps : List TransitStep) :
    List TransitStep :=
  steps.map (enrich_step rows)

end LiveSuggest

namespace BinToCsv

/-- What `extract_protobuf_fields` stores under the value/length keys of a
field record.  The `struct.unpack` float decodings are kept as the raw
bytes they decode (the scan only reports them); `noValue` is a record
whose branch attached no value key (truncated 64/32-bit field, or wire
types 3/4/6/7). -/
inductive FieldValue where
  | varint (value bytesRead : Nat)
  | fixed64 (raw : List Nat)
  | lengthDelim (length : Nat) (payload : List Nat)
  | fixed32 (raw : List Nat)
  | noValue
deriving Repr, DecidableEq

/-- One field record produced by `extract_protobuf_fields`
(bin_to_csv.py lines 75-81). -/
structure FieldInfo where
  offset : Nat
  fieldNumber : Nat
  wireType : Nat
  rawByte : Nat
  value : FieldValue
deriving Repr, DecidableEq

/-- The byte loop of `read_varint` (bin_to_csv.py lines 129-143):
`for i in range(start, min(start + 10, len(data)))`, accumulating 7-bit
groups little-endian and stopping once the continuation bit is clear. -/
def read_varint_go (data : List Nat) (i stop result shift bytesRead : Nat) :
    Nat × Nat :=
  if _h : i < stop then
    let byte := data.getD i 0
    let result2 := result ||| ((byte &&& 0x7F) <<< shift)
    let bytesRead2 := bytesRead + 1
    if byte &&& 0x80 = 0 then (result2, bytesRead2)
    else read_varint_go data (i + 1) stop result2 (shift + 7) bytesRead2
  else (result, bytesRead)
termination_by stop - i

/-- `read_varint` (bin_to_csv.py lines 129-143): returns the decoded value
and the number of bytes consumed (0 when `start` is past the buffer). -/
def read_varint (data : List Nat) (start : Nat) : Nat × Nat :=
  read_varint_go data start (min (start + 10) data.length) 0 0 0

/-- One iteration of the `while` loop of `extract_protobuf_fields`
(bin_to_csv.py lines 60-124), at an offset known to be in bounds: the tag
byte is split into field number and wire type and the value is read per
wire type.  The returned `Nat` is the number of bytes consumed after the
tag byte, so the loop resumes at `i + 1 + delta` — exactly the `i`
increments of the Python body.  `none` is the one arm (truncated
length-delimited field) that breaks out of the loop without appending a
record. -/
def extractStep (data : List Nat) (i : Nat) : Option FieldInfo × Nat :=
  let byte := data.getD i 0
  let fieldNumber := byte >>> 3
  let wireType := byte &&& 7
  let i1 := i + 1
  if wireType = 0 then
    let vr := read_varint data i1
    (some ⟨i, fieldNumber, wireType, byte, .varint vr.1 vr.2⟩, vr.2)
  else if wireType = 1 then
    if i1 + 8 ≤ data.length then
      (some ⟨i, fieldNumber, wireType, byte, .fixed64 ((data.drop i1).take 8)⟩,
       8)
    else (some ⟨i, fieldNumber, wireType, byte, .noValue⟩, 0)
  else if wireType = 2 then
    let vr := read_varint data i1
    if i1 + vr.2 + vr.1 ≤ data.length then
      (some ⟨i, fieldNumber, wireType, byte,
             .lengthDelim vr.1 ((data.drop (i1 + vr.2)).take vr.1)⟩,
       vr.2 + vr.1)
    else (none, 0)
  else if wireType = 5 then
    if i1 + 4 ≤ data.length then
      (some ⟨i, fieldNumber, wireType, byte, .fixed32 ((data.drop i1).take 4)⟩,
       4)
    else (some ⟨i, fieldNumber, wireType, byte, .noValue⟩, 0)
  else
    (some ⟨i, fieldNumber, wireType, byte, .noValue⟩, 1)

/-- The `while` loop of `extract_protobuf_fields` (bin_to_csv.py lines
58-124): `count` is `len(results)` so far; after appending a record the
loop breaks when the offset is exhausted or more than 1000 records exist.
The `except` arm of the Python loop is unreachable — every operation in
the body is guarded by the bounds checks modelled here — so it has no
counterpart. -/
def extract_go (data : List Nat) (i count : Nat) : List FieldInfo :=
  if _hi : i < data.length then
    match extractStep data i with
    | (none, _) => []
    | (some fi, delta) =>
        fi :: (if i + 1 + delta ≥ data.length ∨ count + 1 > 1000 then []
               else extract_go data (i + 1 + delta) (count + 1))
  else []
termination_by data.length - i
decreasing_by omega

/-- `extract_protobuf_fields` (bin_to_csv.py lines 52-126). -/
def extract_protobuf_fields (data : List Nat) : List FieldInfo :=
  extract_go data 0 0

end BinToCsv

/-! ## Helper lemmas (shared) -/

/-- Each record consumes at least the tag byte, so the scan produces at most
one record per remaining byte. -/
theorem BinToCsv.extract_go_length_le (data : List Nat) :
    ∀ n i count, data.length - i ≤ n →
      (BinToCsv.extract_go data i count).length ≤ data.length - i := by
  intro n
  induction n with
  | zero =>
      intro i count hn
      unfold BinToCsv.extract_go
      split
      · rename_i hi
        exact absurd hi (by omega)
      · simp
  | succ n ih =>
      intro i count hn
      unfold BinToCsv.extract_go
      split
      · rename_i hi
        rcases hstep : BinToCsv.extractStep data i with ⟨ofi, delta⟩
        cases ofi with
        | none => simp
        | some fi =>
            simp only [List.length_cons]
            split
            · simp
              omega
            · have hrec := ih (i + 1 + delta) (count + 1) (by omega)
              omega
      · simp

/-- `selectLatest` returns an element of its input list. -/
theorem LiveSuggest.selectLatest_mem :
    ∀ (l : List LiveSuggest.DataRow) (v : LiveSuggest.DataRow),
      LiveSuggest.selectLatest l = some v → v ∈ l := by
  intro l
  induction l with
  | nil => intro v h; simp [LiveSuggest.selectLatest] at h
  | cons a rest ih =>
      intro v h
      unfold LiveSuggest.selectLatest at h
      rcases hr : LiveSuggest.selectLatest rest with _ | w
      · rw [hr] at h
        simp at h
        simp [h]
      · rw [hr] at h
        simp at h
        split at h
        · simp at h
          right
          exact h ▸ ih w hr
        · simp at h
          simp [h]

/-- `selectLatest` returns an element whose timestamp key no list element
strictly exceeds. -/
theorem LiveSuggest.selectLatest_max :
    ∀ (l : List LiveSuggest.DataRow) (v : LiveSuggest.DataRow),
      LiveSuggest.selectLatest l = some v →
        ∀ c ∈ l, LiveSuggest.tsKey c ≤ LiveSuggest.tsKey v := by
  intro l
  induction l with
  | nil => intro v h; simp [LiveSuggest.selectLatest] at h
  | cons a rest ih =>
      intro v h c hc
      unfold LiveSuggest.selectLatest at h
      rcases hr : LiveSuggest.selectLatest rest with _ | w
      · rw [hr] at h
        simp at h
        rcases List.mem_cons.mp hc with hc | hc
        · subst h; subst hc; exact le_refl _
        · cases rest with
          | nil => simp at hc
          | cons b rest2 =>
              exfalso
              unfold LiveSuggest.selectLatest at hr
              rcases h2 : LiveSuggest.selectLatest rest2 with _ | u <;> rw [h2] at hr
              · simp at hr
              · simp at hr
                split at hr <;> simp at hr
      · rw [hr] at h
        simp at h
        split at h <;> rename_i hgt <;> simp at h <;> subst h
        · rcases List.mem_cons.mp hc with hc | hc
          · subst hc; omega
          · exact ih w hr c hc
        · rcases List.mem_cons.mp hc with hc | hc
          · subst hc; exact le_refl _
          · have := ih w hr c hc
            omega

/-- `selectLatest` never returns `none` on a nonempty list. -/
theorem LiveSuggest.selectLatest_isSome :
    ∀ (a : LiveSuggest.DataRow) (rest : List LiveSuggest.DataRow),
      (LiveSuggest.selectLatest (a :: rest)).isSome := by
  intro a rest
  unfold LiveSuggest.selectLatest
  rcases LiveSuggest.selectLatest rest with _ | w
  · simp
  · simp
    split <;> simp

/-- `selectLatest` returns the first element, in input order, whose key is
maximal: the list splits into a prefix of strictly smaller keys, the
returned element, and a suffix of no-greater keys — exactly the element
Python's stable descending sort followed by `[0]` selects. -/
theorem LiveSuggest.selectLatest_first_max :
    ∀ (l : List LiveSuggest.DataRow) (v : LiveSuggest.DataRow),
      LiveSuggest.selectLatest l = some v →
        ∃ l1 l2, l = l1 ++ v :: l2 ∧
          (∀ c ∈ l1, LiveSuggest.tsKey c < LiveSuggest.tsKey v) ∧
          (∀ c ∈ l2, LiveSuggest.tsKey c ≤ LiveSuggest.tsKey v) := by
  intro l
  induction l with
  | nil => intro v h; simp [LiveSuggest.selectLatest] at h
  | cons a rest ih =>
      intro v h
      unfold LiveSuggest.selectLatest at h
      rcases hr : LiveSuggest.selectLatest rest with _ | w
      · rw [hr] at h
        simp at h
        subst h
        cases rest with
        | nil => exact ⟨[], [], rfl, by simp, by simp⟩
        | cons b rest2 =>
            have hs := LiveSuggest.selectLatest_isSome b rest2
            rw [hr] at hs
            simp at hs
      · rw [hr] at h
        simp at h
        split at h <;> rename_i hgt <;> simp at h <;> subst h
        · obtain ⟨m1, m2, hsplit, hpre, hsuf⟩ := ih w hr
          refine ⟨a :: m1, m2, by rw [hsplit]; rfl, ?_, hsuf⟩
          intro c hc
          rcases List.mem_cons.mp hc with hc | hc
          · subst hc; omega
          · exact hpre c hc
        · refine ⟨[], rest, rfl, by simp, ?_⟩
          intro c hc
          have hle := LiveSuggest.selectLatest_max rest w hr c hc
          omega

/-- The vehicle parse yields no row exactly when no entity carries a
vehicle message. -/
theorem Pipeline.parseVehicleEntities_eq_nil_iff :
    ∀ (es : List Pipeline.FeedEntity) (counter : Nat),
      Pipeline.parseVehicleEntities es counter = [] ↔
        ∀ e ∈ es, e.vehicle = none := by
  intro es
  induction es with
  | nil => intro counter; simp [Pipeline.parseVehicleEntities]
  | cons e rest ih =>
      intro counter
      unfold Pipeline.parseVehicleEntities
      rcases he : e.vehicle with _ | v
      · simp [he, ih counter]
      · simp [he]

/-- The merge is the concatenation of its per-vehicle blocks. -/
theorem Pipeline.merge_vehicles_trips_cons
    (v : Pipeline.FinalVehicleRow) (rest : List Pipeline.FinalVehicleRow)
    (trips : List Pipeline.TripsSmallRow) :
    Pipeline.merge_vehicles_trips (v :: rest) trips =
      Pipeline.merge_vehicles_trips [v] trips ++
        Pipeline.merge_vehicles_trips rest trips := by
  simp [Pipeline.merge_vehicles_trips]

/-- One vehicle joins into `max 1 k` rows where `k` counts its matching
trip rows. -/
theorem Pipeline.merge_one_length
    (v : Pipeline.FinalVehicleRow) (trips : List Pipeline.TripsSmallRow) :
    (Pipeline.merge_vehicles_trips [v] trips).length =
      max 1 (trips.filter (Pipeline.joinKeyMatches v)).length := by
  simp only [Pipeline.merge_vehicles_trips, List.flatMap_cons, List.flatMap_nil,
    List.append_nil]
  rcases hf : trips.filter (Pipeline.joinKeyMatches v) with _ | ⟨t, ts⟩
  · simp
  · simp

/-! ## Claim theorems -/

/-- C2: for an integer-or-null delay, `secondsToMinutes` splits the input
by floor division by 60 with a remainder in `[0,60)`; a remainder `< 30`
keeps the floor value, a remainder `≥ 30` moves one further minute away
from zero in the sign of the input; null maps to null; and in particular
`-40 ↦ -1`, `29 ↦ 0`, `30 ↦ 1`. -/
theorem C2_seconds_to_minutes_spec :
    Pipeline.seconds_to_minutes_custom none = none ∧
    (∀ s : Int,
      0 ≤ Int.fmod s 60 ∧ Int.fmod s 60 < 60 ∧
      s = 60 * Int.fdiv s 60 + Int.fmod s 60 ∧
      Pipeline.seconds_to_minutes_custom (some s) =
        some (if Int.fmod s 60 < 30 then Int.fdiv s 60
              else if s < 0 then Int.fdiv s 60 - 1 else Int.fdiv s 60 + 1)) ∧
    Pipeline.seconds_to_minutes_custom (some (-40)) = some (-1) ∧
    Pipeline.seconds_to_minutes_custom (some 29) = some 0 ∧
    Pipeline.seconds_to_minutes_custom (some 30) = some 1 := by
  have key : ∀ s : Int,
      0 ≤ Int.fmod s 60 ∧ Int.fmod s 60 < 60 ∧
      s = 60 * Int.fdiv s 60 + Int.fmod s 60 := by
    intro s
    have h1 : Int.fmod s 60 = s % 60 := Int.fmod_eq_emod s (by norm_num)
    have h2 : Int.fdiv s 60 = s / 60 := Int.fdiv_eq_ediv s (by norm_num)
    rw [h1, h2]
    refine ⟨?_, ?_, ?_⟩ <;> omega
  refine ⟨rfl, fun s => ⟨(key s).1, (key s).2.1, (key s).2.2, ?_⟩,
    by decide, by decide, by decide⟩
  have h0 : |Int.fmod s 60| = Int.fmod s 60 := abs_of_nonneg (key s).1
  simp only [Pipeline.seconds_to_minutes_custom, h0]
  split_ifs <;> rfl

/-- C3 (code evaluation at the failing input): the code returns `-3` for
an input of `-70` seconds, not the `-1` that both the claim and the
function's own comment (`np. -70s -> -1`) require: `floor(-70/60) = -2`,
remainder `50 ≥ 30`, and the negative branch subtracts another minute. -/
theorem C3_code_eval_minus70 :
    Pipeline.seconds_to_minutes_custom (some (-70)) = some (-3) := by decide

/-- C4: a cycle whose fetch or decode fails leaves the published snapshot
exactly as it was — the failing arm returns the state unchanged (with
`False`), and a trace ending in a failed cycle publishes the same snapshot
as the trace without it, the loop simply continuing. -/
theorem C4_failed_cycle_preserves_snapshot :
    (∀ (latest : Option VehPos.Snapshot) (e : VehPos.FetchFailure),
      VehPos.fetch_vehicle_positions latest (.error e) = (latest, false)) ∧
    (∀ (latest : Option VehPos.Snapshot)
        (outcomes : List (Except VehPos.FetchFailure VehPos.FetchSuccess))
        (e : VehPos.FetchFailure),
      VehPos.continuous_fetch_loop latest (outcomes ++ [.error e]) =
        VehPos.continuous_fetch_loop latest outcomes) := by
  constructor
  · intro latest e; rfl
  · intro latest outcomes e
    unfold VehPos.continuous_fetch_loop
    rw [List.foldl_append]
    rfl

/-- C7: the wire decoder is a total function returning a finite record
sequence — the empty buffer yields the empty sequence, and every buffer
yields at most one record per byte (each loop iteration consumes at least
the tag byte; all reads are bounds-checked, so no exception path exists
in the embedded loop). -/
theorem C7_decoder_total :
    BinToCsv.extract_protobuf_fields [] = [] ∧
    ∀ data : List Nat,
      (BinToCsv.extract_protobuf_fields data).length ≤ data.length := by
  constructor
  · unfold BinToCsv.extract_protobuf_fields BinToCsv.extract_go
    simp
  · intro data
    have h := BinToCsv.extract_go_length_le data data.length 0 0 (by omega)
    simpa using h

/-- C9: the tram, bus, and night-bus static route sets are pairwise
disjoint, so classification is by the unique containing set: a null route
id and an id in no set map to `unknown`, and an id whose stripped form
lies in one of the sets maps to that set's category. -/
theorem C9_route_sets_disjoint :
    (∀ x ∈ Pipeline.TRAM_ROUTES, x ∉ Pipeline.BUS_ROUTES) ∧
    (∀ x ∈ Pipeline.TRAM_ROUTES, x ∉ Pipeline.NOCNE_BUS_ROUTES) ∧
    (∀ x ∈ Pipeline.BUS_ROUTES, x ∉ Pipeline.NOCNE_BUS_ROUTES) ∧
    Pipeline.classify_route_type none = "unknown" ∧
    (∀ r : String,
      (Py.pyStrip r ∈ Pipeline.TRAM_ROUTES →
        Pipeline.classify_route_type (some r) = "tramwaj") ∧
      (Py.pyStrip r ∈ Pipeline.BUS_ROUTES →
        Pipeline.classify_route_type (some r) = "autobus") ∧
      (Py.pyStrip r ∈ Pipeline.NOCNE_BUS_ROUTES →
        Pipeline.classify_route_type (some r) = "nocny_autobus") ∧
      (Py.pyStrip r ∉ Pipeline.TRAM_ROUTES →
        Py.pyStrip r ∉ Pipeline.BUS_ROUTES →
        Py.pyStrip r ∉ Pipeline.NOCNE_BUS_ROUTES →
        Pipeline.classify_route_type (some r) = "unknown")) := by
  have d1 : ∀ x ∈ Pipeline.TRAM_ROUTES, x ∉ Pipeline.BUS_ROUTES := by decide
  have d2 : ∀ x ∈ Pipeline.TRAM_ROUTES, x ∉ Pipeline.NOCNE_BUS_ROUTES := by decide
  have d3 : ∀ x ∈ Pipeline.BUS_ROUTES, x ∉ Pipeline.NOCNE_BUS_ROUTES := by decide
  refine ⟨d1, d2, d3, rfl, fun r => ⟨?_, ?_, ?_, ?_⟩⟩
  · intro h
    simp [Pipeline.classify_route_type, h]
  · intro h
    have hnt : Py.pyStrip r ∉ Pipeline.TRAM_ROUTES := fun ht => d1 _ ht h
    simp [Pipeline.classify_route_type, h, hnt]
  · intro h
    have hnt : Py.pyStrip r ∉ Pipeline.TRAM_ROUTES := fun ht => d2 _ ht h
    have hnb : Py.pyStrip r ∉ Pipeline.BUS_ROUTES := fun hb => d3 _ hb h
    simp [Pipeline.classify_route_type, h, hnt, hnb]
  · intro h1 h2 h3
    simp [Pipeline.classify_route_type, h1, h2, h3]

/-- C9 witness: the night-bus id `N1A` is classified through the unique
set containing it. -/
theorem C9_route_sets_disjoint_witness :
    Pipeline.classify_route_type (some "N1A") = "nocny_autobus" :=
  ((C9_route_sets_disjoint.2.2.2.2 "N1A").2.2.1) (by decide)

/-- C1 counterexample: one vehicle record whose join key `(trip_id = "T1",
current_stop_sequence = 5)` is shared by two stop-time updates produces
two output rows, not one — the pandas left merge duplicates the vehicle
row instead of taking at most one match. -/
theorem C1_cex_two_matching_updates :
    (Pipeline.merge_vehicles_trips
        [⟨1, some "T1", some "1", some "V1", none, none, "0052", none,
          some 5, none, "tramwaj", none, none, none⟩]
        [⟨some "T1", some 5, none, some 120, none, none⟩,
         ⟨some "T1", some 5, none, some 180, none, none⟩]).length ≠
      ([⟨1, some "T1", some "1", some "V1", none, none, "0052", none,
          some 5, none, "tramwaj", none, none, none⟩] :
        List Pipeline.FinalVehicleRow).length := by
  decide

/-- C1 (amended): the delay join produces at least one row per vehicle —
exactly `max 1 k` rows for a vehicle with `k` matching updates, so the
output count is the sum of these blocks — and a vehicle with no matching
update yields exactly one row whose delay fields are all null. -/
theorem C1_join_left_cardinality :
    ∀ (vehicles : List Pipeline.FinalVehicleRow)
      (trips : List Pipeline.TripsSmallRow),
      (Pipeline.merge_vehicles_trips vehicles trips).length =
        (vehicles.map (fun v =>
          max 1 (trips.filter (Pipeline.joinKeyMatches v)).length)).sum ∧
      (∀ v : Pipeline.FinalVehicleRow,
        trips.filter (Pipeline.joinKeyMatches v) = [] →
          Pipeline.merge_vehicles_trips [v] trips =
            [Pipeline.mkJoined v none]) ∧
      (∀ v : Pipeline.FinalVehicleRow,
        (Pipeline.mkJoined v none).tuDirectionId = none ∧
        (Pipeline.mkJoined v none).arrivalDelay = none ∧
        (Pipeline.mkJoined v none).stopId = none ∧
        (Pipeline.mkJoined v none).stopSequence = none ∧
        (Pipeline.mkJoined v none).scheduleRelationship = none ∧
        (Pipeline.mkJoined v none).arrivalDelayMinutes = none) := by
  intro vehicles trips
  refine ⟨?_, ?_, ?_⟩
  · induction vehicles with
    | nil => simp [Pipeline.merge_vehicles_trips]
    | cons v rest ih =>
        rw [Pipeline.merge_vehicles_trips_cons, List.length_append, ih,
          Pipeline.merge_one_length, List.map_cons, List.sum_cons]
  · intro v hv
    simp [Pipeline.merge_vehicles_trips, hv]
  · intro v
    exact ⟨rfl, rfl, rfl, rfl, rfl, rfl⟩

/-- C1 witness: a vehicle with no matching update joins into its single
all-null-delay row. -/
theorem C1_join_left_cardinality_witness :
    Pipeline.merge_vehicles_trips
        [⟨1, some "T1", some "1", some "V1", none, none, "0052", none,
          some 5, none, "tramwaj", none, none, none⟩] [] =
      [Pipeline.mkJoined
        ⟨1, some "T1", some "1", some "V1", none, none, "0052", none,
         some 5, none, "tramwaj", none, none, none⟩ none] :=
  (C1_join_left_cardinality
      [⟨1, some "T1", some "1", some "V1", none, none, "0052", none,
        some 5, none, "tramwaj", none, none, none⟩] []).2.1 _ rfl

/-- C5 counterexample: one vehicle on line `F1` (at stop `0001`) and a leg
on line `F1` whose departure-stop label carries no parenthesized code.
The claimed behavior (line filter with graceful fallback) returns the
vehicle; the code returns `none`, because `find_matching_vehicle` requires
a stop code and filters conjunctively. -/
theorem C5_cex_no_fallback :
    LiveSuggest.find_matching_vehicle
        [⟨some "V1", some "F1", some "0001", none, none, some 5⟩]
        (some "F1") (LiveSuggest.extract_stop_code (some "Main St")) = none ∧
    LiveSuggest.spec_find_matching_vehicle
        [⟨some "V1", some "F1", some "0001", none, none, some 5⟩]
        (some "F1") (LiveSuggest.extract_stop_code (some "Main St")) =
      some ⟨some "V1", some "F1", some "0001", none, none, some 5⟩ := by
  constructor <;> rfl

/-- C5 (amended): the matcher yields a candidate only when both the line
and the extracted stop code are truthy and some vehicle matches both keys
at once (stringified `route_id` equals the line AND stringified
`current_stop_id` equals the code — no fallback to the line-only set);
the returned candidate is one of those vehicles, of maximal
timestamp-or-0 key, and precisely the first such in input order: every
earlier candidate has a strictly smaller key, every later one no
greater. -/
theorem C5_matcher_conjunctive :
    ∀ (rows : List LiveSuggest.DataRow) (line depStopCode : Option String),
      (Py.pyFalsyStr line = true ∨ Py.pyFalsyStr depStopCode = true →
        LiveSuggest.find_matching_vehicle rows line depStopCode = none) ∧
      (LiveSuggest.matcherCandidates rows (Py.pyStr line)
          (Py.pyStr depStopCode) = [] →
        LiveSuggest.find_matching_vehicle rows line depStopCode = none) ∧
      (∀ v, LiveSuggest.find_matching_vehicle rows line depStopCode = some v →
        v ∈ LiveSuggest.matcherCandidates rows (Py.pyStr line)
              (Py.pyStr depStopCode) ∧
        (∀ c ∈ LiveSuggest.matcherCandidates rows (Py.pyStr line)
              (Py.pyStr depStopCode),
          LiveSuggest.tsKey c ≤ LiveSuggest.tsKey v) ∧
        ∃ l1 l2, LiveSuggest.matcherCandidates rows (Py.pyStr line)
              (Py.pyStr depStopCode) = l1 ++ v :: l2 ∧
          (∀ c ∈ l1, LiveSuggest.tsKey c < LiveSuggest.tsKey v) ∧
          (∀ c ∈ l2, LiveSuggest.tsKey c ≤ LiveSuggest.tsKey v)) := by
  intro rows line dep
  refine ⟨?_, ?_, ?_⟩
  · intro h
    unfold LiveSuggest.find_matching_vehicle
    rcases h with h | h <;> simp [h]
  · intro h
    unfold LiveSuggest.find_matching_vehicle
    split
    · rfl
    · dsimp only
      rw [h]
  · intro v hv
    unfold LiveSuggest.find_matching_vehicle at hv
    split at hv
    · exact absurd hv (by simp)
    · dsimp only at hv
      rcases hcand : LiveSuggest.matcherCandidates rows (Py.pyStr line)
          (Py.pyStr dep) with _ | ⟨c, cs⟩
      · rw [hcand] at hv
        exact absurd hv (by simp)
      · rw [hcand] at hv
        exact ⟨LiveSuggest.selectLatest_mem _ v hv,
          LiveSuggest.selectLatest_max _ v hv,
          LiveSuggest.selectLatest_first_max _ v hv⟩

/-- C5 witness: with two vehicles matching line `F1` and code `0052`, the
matcher's result is a candidate of maximal timestamp key, the first such
in input order. -/
theorem C5_matcher_conjunctive_witness :
    (⟨some "V2", some "F1", some "0052", none, none, some 9⟩ :
        LiveSuggest.DataRow) ∈
      LiveSuggest.matcherCandidates
        [⟨some "V1", some "F1", some "0052", none, none, some 5⟩,
         ⟨some "V2", some "F1", some "0052", none, none, some 9⟩]
        (Py.pyStr (some "F1")) (Py.pyStr (some "0052")) ∧
    (∀ c ∈ LiveSuggest.matcherCandidates
        [⟨some "V1", some "F1", some "0052", none, none, some 5⟩,
         ⟨some "V2", some "F1", some "0052", none, none, some 9⟩]
        (Py.pyStr (some "F1")) (Py.pyStr (some "0052")),
      LiveSuggest.tsKey c ≤
        LiveSuggest.tsKey ⟨some "V2", some "F1", some "0052", none, none, some 9⟩) ∧
    ∃ l1 l2, LiveSuggest.matcherCandidates
        [⟨some "V1", some "F1", some "0052", none, none, some 5⟩,
         ⟨some "V2", some "F1", some "0052", none, none, some 9⟩]
        (Py.pyStr (some "F1")) (Py.pyStr (some "0052")) =
      l1 ++ (⟨some "V2", some "F1", some "0052", none, none, some 9⟩ :
        LiveSuggest.DataRow) :: l2 ∧
      (∀ c ∈ l1, LiveSuggest.tsKey c <
        LiveSuggest.tsKey ⟨some "V2", some "F1", some "0052", none, none, some 9⟩) ∧
      (∀ c ∈ l2, LiveSuggest.tsKey c ≤
        LiveSuggest.tsKey ⟨some "V2", some "F1", some "0052", none, none, some 9⟩) :=
  (C5_matcher_conjunctive
      [⟨some "V1", some "F1", some "0052", none, none, some 5⟩,
       ⟨some "V2", some "F1", some "0052", none, none, some 9⟩]
      (some "F1") (some "0052")).2.2 _ (by decide)

/-- C6 counterexample: a TRANSIT leg on line `F1` while no vehicle has
`route_id = "F1"`.  The enricher returns the step exactly as it came in —
no `vehicle_live` key, no absent/no-match annotation — so downstream
consumers cannot distinguish "checked, nothing found" from "not checked". -/
theorem C6_cex_no_annotation :
    LiveSuggest.enrich_step
        [⟨some "V9", some "G1", some "0052", none, none, some 5⟩]
        ⟨"TRANSIT", some "F1", some "Main St (0052)", none⟩ =
      ⟨"TRANSIT", some "F1", some "Main St (0052)", none⟩ := by
  rfl

/-- C6 (amended): when the matcher finds nothing the enricher leaves the
step unchanged (it adds no annotation), and a line matching no vehicle's
stringified `route_id` always yields `none` from the total matcher (so no
exception is raised). -/
theorem C6_no_match_leaves_step_unchanged :
    ∀ (rows : List LiveSuggest.DataRow) (step : LiveSuggest.TransitStep),
      (LiveSuggest.find_matching_vehicle rows step.line
          (LiveSuggest.extract_stop_code step.departureStop) = none →
        LiveSuggest.enrich_step rows step = step) ∧
      ((∀ v ∈ rows, Py.pyStr v.routeId ≠ Py.pyStr step.line) →
        LiveSuggest.find_matching_vehicle rows step.line
          (LiveSuggest.extract_stop_code step.departureStop) = none) := by
  intro rows step
  constructor
  · intro h
    unfold LiveSuggest.enrich_step
    split
    · rfl
    · dsimp only
      rw [h]
  · intro h
    unfold LiveSuggest.find_matching_vehicle
    split
    · rfl
    · dsimp only
      have hc : LiveSuggest.matcherCandidates rows (Py.pyStr step.line)
          (Py.pyStr (LiveSuggest.extract_stop_code step.departureStop)) = [] := by
        unfold LiveSuggest.matcherCandidates
        rw [List.filter_eq_nil_iff]
        intro v hv
        simp only [decide_eq_true_eq, not_and]
        intro h1
        exact absurd h1 (h v hv)
      rw [hc]

/-- C6 witness: with no live rows at all, a TRANSIT step comes back
unchanged. -/
theorem C6_no_match_leaves_step_unchanged_witness :
    LiveSuggest.enrich_step [] ⟨"TRANSIT", some "W", some "Plac (0001)", none⟩ =
      ⟨"TRANSIT", some "W", some "Plac (0001)", none⟩ :=
  (C6_no_match_leaves_step_unchanged []
      ⟨"TRANSIT", some "W", some "Plac (0001)", none⟩).1 (by rfl)

/-- C8 counterexample: a vehicle with no stop id on the wire.  After
enrichment its `current_stop_id` is the string `"None"` — the `astype(str)`
coercion's rendering of the missing value — not null as the claim states
(the name/lat/lon lookup fields do stay null). -/
theorem C8_cex_stop_id_stringified :
    Pipeline.add_stop_names_to_vehicles
        [⟨"0052", "Some Stop", 0, 0⟩]
        [⟨1, some "V1", some "T1", some "1", none, none, none, none, none,
          none⟩] =
      [⟨1, some "V1", some "T1", some "1", none, none, "None", none, none,
        none, none, none, none⟩] := by
  rfl

/-- C8 (amended): the wire parse maps every absent optional field to null
(never a sentinel); enrichment then coerces `current_stop_id` with
`astype(str)` — so a missing id becomes the string `"None"` — and an id
matching no static stop leaves `current_stop_name`/`lat`/`lon` null. -/
theorem C8_null_propagation :
    (∀ (v : Pipeline.VehiclePosition) (rest : List Pipeline.FeedEntity)
        (ctr : Nat),
      Pipeline.parseVehicleEntities (⟨some v, none⟩ :: rest) ctr =
        ⟨ctr + 1, v.vehicle.id, v.trip.tripId, v.trip.routeId,
         v.position.latitude, v.position.longitude, v.stopId,
         v.currentStopSequence, v.currentStatus, v.timestamp⟩ ::
          Pipeline.parseVehicleEntities rest (ctr + 1)) ∧
    (∀ (stops : List Pipeline.StaticStop) (r : Pipeline.VehicleRow),
      r.currentStopId = none →
        ∀ row ∈ Pipeline.enrichRow stops r, row.currentStopId = "None") ∧
    (∀ (stops : List Pipeline.StaticStop) (r : Pipeline.VehicleRow),
      (∀ s ∈ stops, s.stopId ≠ Py.pyStr r.currentStopId) →
        Pipeline.enrichRow stops r =
          [⟨r.entityId, r.vehicleId, r.tripId, r.routeId, r.latitude,
            r.longitude, Py.pyStr r.currentStopId, r.currentStopSequence,
            r.currentStatus, r.timestamp, none, none, none⟩]) := by
  refine ⟨fun v rest ctr => rfl, ?_, ?_⟩
  · intro stops r h row hrow
    unfold Pipeline.enrichRow at hrow
    rw [h] at hrow
    dsimp only at hrow
    rcases hf : stops.filter (fun s => s.stopId = Py.pyStr none) with _ | ⟨s, ss⟩
    · rw [hf] at hrow
      simp only [List.mem_singleton] at hrow
      subst hrow
      rfl
    · rw [hf] at hrow
      simp only [List.mem_map] at hrow
      obtain ⟨s2, _, hrow⟩ := hrow
      rw [← hrow]
      rfl
  · intro stops r h
    have hf : stops.filter (fun s => s.stopId = Py.pyStr r.currentStopId) = [] := by
      rw [List.filter_eq_nil_iff]
      intro s hs
      simp only [decide_eq_true_eq]
      exact h s hs
    unfold Pipeline.enrichRow
    dsimp only
    rw [hf]

/-- C8 witness: a stop id present on the wire but absent from the static
table keeps its id (stringified) and gains only null lookup fields. -/
theorem C8_null_propagation_witness :
    Pipeline.enrichRow [⟨"0001", "A Stop", 0, 0⟩]
        ⟨2, some "V2", some "T2", some "2", none, none, some "0099", none,
         none, none⟩ =
      [⟨2, some "V2", some "T2", some "2", none, none, "0099", none, none,
        none, none, none, none⟩] :=
  (C8_null_propagation.2.2 [⟨"0001", "A Stop", 0, 0⟩]
      ⟨2, some "V2", some "T2", some "2", none, none, some "0099", none,
       none, none⟩) (by decide)

/-- C10 counterexample: a vehicle feed with one vehicle entity but an
empty trip feed.  The claim says the build returns normally for every
feed with at least one vehicle entity; the code raises — the empty
trip-updates DataFrame has no columns, so `tu_df["tu_route_id"]` raises
`KeyError`. -/
theorem C10_cex_empty_trip_feed :
    Pipeline.build_datasets_from_feeds []
        ⟨[⟨some ⟨⟨none⟩, ⟨none, none, none, none⟩, ⟨none, none⟩,
           none, none, none, none⟩, none⟩]⟩
        ⟨[]⟩ =
      .error "KeyError: tu_route_id" := by
  rfl

/-- C10 (amended): the build raises exactly when a parse produces zero
rows — zero vehicle entities give an empty, column-less vehicles frame
(KeyError on `current_stop_id`), zero stop-time-update rows give a
column-less trips frame (KeyError on `tu_route_id`) — and returns
normally when both row sets are nonempty. -/
theorem C10_build_datasets_emptiness :
    ∀ (stops : List Pipeline.StaticStop) (vf tf : Pipeline.FeedMessage),
      ((∀ e ∈ vf.entity, e.vehicle = none) ↔
        Pipeline.parse_vehicle_positions_feed vf = []) ∧
      (Pipeline.parse_vehicle_positions_feed vf = [] →
        Pipeline.build_datasets_from_feeds stops vf tf =
          .error "KeyError: current_stop_id") ∧
      (Pipeline.parse_vehicle_positions_feed vf ≠ [] →
        Pipeline.parse_trip_updates_feed tf = [] →
        Pipeline.build_datasets_from_feeds stops vf tf =
          .error "KeyError: tu_route_id") ∧
      (Pipeline.parse_vehicle_positions_feed vf ≠ [] →
        Pipeline.parse_trip_updates_feed tf ≠ [] →
        ∃ out, Pipeline.build_datasets_from_feeds stops vf tf = .ok out) := by
  intro stops vf tf
  refine ⟨(Pipeline.parseVehicleEntities_eq_nil_iff vf.entity 0).symm, ?_, ?_, ?_⟩
  · intro h
    simp [Pipeline.build_datasets_from_feeds, h]
  · intro h1 h2
    simp [Pipeline.build_datasets_from_feeds, h1, h2]
  · intro h1 h2
    rcases hv : Pipeline.parse_vehicle_positions_feed vf with _ | ⟨a, as⟩
    · exact absurd hv h1
    rcases ht : Pipeline.parse_trip_updates_feed tf with _ | ⟨b, bs⟩
    · exact absurd ht h2
    rcases hb : Pipeline.build_datasets_from_feeds stops vf tf with e | out
    · exfalso
      unfold Pipeline.build_datasets_from_feeds at hb
      rw [hv, ht] at hb
      simp at hb
    · exact ⟨out, rfl⟩

/-- C10 witness: one vehicle entity and one stop-time update make the
build return normally. -/
theorem C10_build_datasets_emptiness_witness :
    ∃ out, Pipeline.build_datasets_from_feeds []
        ⟨[⟨some ⟨⟨none⟩, ⟨none, none, none, none⟩, ⟨none, none⟩,
           none, none, none, none⟩, none⟩]⟩
        ⟨[⟨none, some ⟨⟨some "T1", some "1", none, none⟩,
           [⟨none, some 5, none, some ⟨some 120⟩⟩]⟩⟩]⟩ = .ok out :=
  (C10_build_datasets_emptiness [] _ _).2.2.2 (by decide) (by decide)
